import Mathlib

/-!
Verification of the push2reaper core against its specification.

Shallow embedding of the state-synchronization core: the Reaper OSC
command client (src/reaper/osc_client.py), the OSC feedback server
(src/reaper/osc_server.py), the DAW state store (src/reaper/state.py),
the Playtime streaming client (src/playtime/client.py), the event bus
(src/core/event_bus.py), the mode dispatcher (src/main.py) and the
differential pad output layer (src/push2/pads.py).

Python floats are modelled as rationals, Python dicts as association
lists, stateful methods as explicit state-passing functions, and
outbound network writes as returned message lists.
-/

namespace Push2Reaper

/-! ## Command client (src/reaper/osc_client.py) -/

/-- One outbound OSC message as produced by ReaperOSCClient._send:
an address string and the list of arguments (numeric arguments only,
modelled as rationals). -/
structure OscMsg where
  address : String
  args : List ℚ
deriving DecidableEq

/-- Encoder sensitivity VOLUME_STEP = 0.015 (osc_client.py line 13). -/
def VOLUME_STEP : ℚ := 0.015

/-- Encoder sensitivity PAN_STEP = 0.02 (osc_client.py line 14). -/
def PAN_STEP : ℚ := 0.02

/-- Python max(0.0, min(1.0, v)) as used throughout osc_client.py. -/
def clamp01 (v : ℚ) : ℚ := max 0 (min 1 v)

/-- The message sent by `self._send(f"/track/{i}/select", v)`. -/
def selMsg (i : Nat) (v : ℚ) : OscMsg :=
  ⟨"/track/" ++ toString i ++ "/select", [v]⟩

/-- The message sent by `self._send(f"/track/{i}/recarm", v)`. -/
def armMsg (i : Nat) (v : ℚ) : OscMsg :=
  ⟨"/track/" ++ toString i ++ "/recarm", [v]⟩

/-- ReaperOSCClient.set_track_volume: clamps the value to [0,1] and sends
it to /track/{n}/volume.  Returns the emitted message. -/
def set_track_volume (track_num : Nat) (value : ℚ) : OscMsg :=
  ⟨"/track/" ++ toString track_num ++ "/volume", [clamp01 value]⟩

/-- ReaperOSCClient.nudge_track_volume: new value is
max(0, min(1, current + increment * VOLUME_STEP)); that value is sent
via set_track_volume and returned.  Result: (returned value, message). -/
def nudge_track_volume (track_num : Nat) (current : ℚ) (increment : ℤ) :
    ℚ × OscMsg :=
  let new_val := clamp01 (current + (increment : ℚ) * VOLUME_STEP)
  (new_val, set_track_volume track_num new_val)

/-- n consecutive nudges of +1 starting from v (each call feeding the
returned value back in as the next current value, as a caller holding the
optimistic state would). -/
def nudgeIter (track_num : Nat) : Nat → ℚ → ℚ
  | 0, v => v
  | n + 1, v => nudgeIter track_num n (nudge_track_volume track_num v 1).1

/-- ReaperOSCClient.select_and_arm_track: for every i in 1..bank_size with
i ≠ track_num, send select 0 and recarm 0; then send select 1 and recarm 1
for the target.  Returns the emitted messages in send order. -/
def select_and_arm_track (track_num : Nat) (bank_size : Nat) : List OscMsg :=
  ((List.range bank_size).foldr (fun j acc =>
    (if j + 1 = track_num then [] else [selMsg (j + 1) 0, armMsg (j + 1) 0])
      ++ acc) [])
  ++ [selMsg track_num 1, armMsg track_num 1]

/-! ## DAW state store (src/reaper/state.py) -/

/-- One entry of TrackInfo.sends: {name, volume, volume_str, pan}. -/
structure SendInfo where
  name : String
  volume : ℚ
  volume_str : String
  pan : ℚ
deriving DecidableEq

/-- The default send appended by ReaperState.update_send when the sends
list is extended; k is the length of the list before the append. -/
def SendInfo.init (k : Nat) : SendInfo :=
  { name := "Send " ++ toString (k + 1)
    volume := 0
    volume_str := "-inf dB"
    pan := 0.5 }

/-- One entry of FXInfo.params: {name, value}. -/
structure ParamInfo where
  name : String
  value : ℚ
deriving DecidableEq

/-- The default param appended by ReaperState.update_fx_param; k is the
length of the params list before the append. -/
def ParamInfo.init (k : Nat) : ParamInfo :=
  { name := "Param " ++ toString (k + 1), value := 0 }

/-- state.py FXInfo.__init__. -/
structure FXInfo where
  index : Nat
  name : String
  params : List ParamInfo
deriving DecidableEq

def FXInfo.init (index : Nat) : FXInfo :=
  { index := index, name := "FX " ++ toString (index + 1), params := [] }

/-- state.py TrackInfo.__init__: per-track state with its defaults. -/
structure TrackInfo where
  index : Nat
  name : String
  volume : ℚ
  pan : ℚ
  mute : Bool
  solo : Bool
  rec_arm : Bool
  selected : Bool
  vu : ℚ
  vu_l : ℚ
  vu_r : ℚ
  volume_str : String
  pan_str : String
  color : Option (Nat × Nat × Nat)
  automode : Int
  sends : List SendInfo
deriving DecidableEq

def TrackInfo.init (index : Nat) : TrackInfo :=
  { index := index
    name := "Track " ++ toString index
    volume := 0.716
    pan := 0.5
    mute := false
    solo := false
    rec_arm := false
    selected := false
    vu := 0
    vu_l := 0
    vu_r := 0
    volume_str := "0.0 dB"
    pan_str := "<C>"
    color := none
    automode := 0
    sends := [] }

/-- Python dict lookup d.get(k) on an insertion-ordered association list. -/
def dictGet {κ α : Type} [DecidableEq κ] (m : List (κ × α)) (k : κ) : Option α :=
  (m.find? (fun p => p.1 == k)).map (fun p => p.2)

/-- Python dict assignment d[k] = v: replace in place when the key is
present, otherwise append (insertion order preserved). -/
def dictSet {κ α : Type} [DecidableEq κ] (m : List (κ × α)) (k : κ) (v : α) :
    List (κ × α) :=
  if (m.find? (fun p => p.1 == k)).isSome then
    m.map (fun p => if p.1 = k then (k, v) else p)
  else m ++ [(k, v)]

/-- ReaperState, with the per-track dict and the per-track FX dict as
association lists.  The event bus is not attached (the Python class is
constructible with event_bus=None, in which case no mutator publishes). -/
structure ReaperState where
  tracks : List (Nat × TrackInfo)
  playing : Bool
  recording : Bool
  paused : Bool
  repeatFlag : Bool
  tempo : ℚ
  tempo_str : String
  time_str : String
  beat_str : String
  master_volume : ℚ
  master_pan : ℚ
  master_vu : ℚ
  master_volume_str : String
  bank_offset : Nat
  selected_track : Nat
  fx : List (Nat × List FXInfo)
  dirty : Bool
deriving DecidableEq

/-- ReaperState.__init__(num_tracks): tracks 1..num_tracks pre-allocated. -/
def ReaperState.init (num_tracks : Nat) : ReaperState :=
  { tracks := (List.range num_tracks).map (fun i => (i + 1, TrackInfo.init (i + 1)))
    playing := false
    recording := false
    paused := false
    repeatFlag := false
    tempo := 120
    tempo_str := "120.00"
    time_str := "0:00.000"
    beat_str := "1.1.00"
    master_volume := 0.716
    master_pan := 0.5
    master_vu := 0
    master_volume_str := "0.0 dB"
    bank_offset := 0
    selected_track := 1
    fx := []
    dirty := true }

/-- setattr(track, field, v) for the single float kwarg passed by the
feedback handler _on_track_float; the registered field names are exactly
"volume", "pan", "vu", "vu_l", "vu_r" (all in TrackInfo.__slots__, so
hasattr holds for each). -/
def TrackInfo.setFloat (t : TrackInfo) (field : String) (v : ℚ) : TrackInfo :=
  if field = "volume" then { t with volume := v }
  else if field = "pan" then { t with pan := v }
  else if field = "vu" then { t with vu := v }
  else if field = "vu_l" then { t with vu_l := v }
  else if field = "vu_r" then { t with vu_r := v }
  else t

/-- ReaperState.update_track specialised to one float kwarg: materialize
the track when missing, set the attribute, raise the dirty flag. -/
def ReaperState.update_track_float (s : ReaperState) (track_num : Nat)
    (field : String) (v : ℚ) : ReaperState :=
  let t := (dictGet s.tracks track_num).getD (TrackInfo.init track_num)
  { s with tracks := dictSet s.tracks track_num (t.setFloat field v)
           dirty := true }

/-- ReaperState.update_master specialised to one float kwarg (fields
"volume", "pan", "vu"; setattr targets master_{field}). -/
def ReaperState.update_master_float (s : ReaperState) (field : String)
    (v : ℚ) : ReaperState :=
  if field = "volume" then { s with master_volume := v, dirty := true }
  else if field = "pan" then { s with master_pan := v, dirty := true }
  else if field = "vu" then { s with master_vu := v, dirty := true }
  else { s with dirty := true }

/-- The while-loop in update_send: append default sends while
len(sends) <= send_idx. -/
def extendSends (sends : List SendInfo) (idx : Nat) : List SendInfo :=
  sends ++ (List.range (idx + 1 - sends.length)).map
    (fun j => SendInfo.init (sends.length + j))

/-- Python sends[idx].update({field: v}) for the float fields "volume"
and "pan" passed by _on_send_float. -/
def SendInfo.setFloat (d : SendInfo) (field : String) (v : ℚ) : SendInfo :=
  if field = "volume" then { d with volume := v }
  else if field = "pan" then { d with pan := v }
  else d

/-- ReaperState.update_send specialised to one float kwarg: materialize
the track, grow the sends list, update the addressed send. -/
def ReaperState.update_send_float (s : ReaperState) (track_num send_idx : Nat)
    (field : String) (v : ℚ) : ReaperState :=
  let t := (dictGet s.tracks track_num).getD (TrackInfo.init track_num)
  let sends := extendSends t.sends send_idx
  let sends2 := sends.set send_idx
    ((sends.getD send_idx (SendInfo.init 0)).setFloat field v)
  { s with tracks := dictSet s.tracks track_num { t with sends := sends2 }
           dirty := true }

/-- The while-loop in update_fx_param / update_fx: append default FXInfo
entries while len(fx_list) <= fx_idx. -/
def extendFx (fxl : List FXInfo) (idx : Nat) : List FXInfo :=
  fxl ++ (List.range (idx + 1 - fxl.length)).map
    (fun j => FXInfo.init (fxl.length + j))

/-- The while-loop in update_fx_param: append default params while
len(fx.params) <= param_idx. -/
def extendParams (ps : List ParamInfo) (idx : Nat) : List ParamInfo :=
  ps ++ (List.range (idx + 1 - ps.length)).map
    (fun j => ParamInfo.init (ps.length + j))

/-- ReaperState.update_fx_param specialised to the value kwarg:
materialize the fx list and the params list, set the value. -/
def ReaperState.update_fx_param_value (s : ReaperState)
    (track_num fx_idx param_idx : Nat) (v : ℚ) : ReaperState :=
  let fxl := extendFx ((dictGet s.fx track_num).getD []) fx_idx
  let fx := fxl.getD fx_idx (FXInfo.init 0)
  let ps := extendParams fx.params param_idx
  let ps2 := ps.set param_idx
    { (ps.getD param_idx (ParamInfo.init 0)) with value := v }
  { s with fx := dictSet s.fx track_num (fxl.set fx_idx { fx with params := ps2 })
           dirty := true }

/-- ReaperState.get_bank_tracks: the 8 tracks of the current bank via
self.tracks.get(i, TrackInfo(i)) for i in start..start+7.  The state is
returned alongside the list to make explicit that the method reads but
never writes the store (dict.get with a default does not insert). -/
def ReaperState.get_bank_tracks (s : ReaperState) :
    ReaperState × List TrackInfo :=
  (s, (List.range 8).map (fun j =>
    (dictGet s.tracks (s.bank_offset + 1 + j)).getD
      (TrackInfo.init (s.bank_offset + 1 + j))))

/-! ## Feedback router (src/reaper/osc_server.py) -/

/-- An inbound OSC payload, classified by whether Python float() coercion
succeeds on it: `num q` is any payload float() maps to the value q
(floats, ints, numeric strings); `nonNumeric` is any payload on which
float() raises ValueError or TypeError (e.g. the string "-52.7dB"). -/
inductive OscPayload where
  | num (q : ℚ)
  | nonNumeric
deriving DecidableEq

/-- The outcome of the handlers try/except around float(args[0]). -/
def pyFloat : OscPayload → Option ℚ
  | .num q => some q
  | .nonNumeric => none

/-- Consume an exact literal prefix of a character stream. -/
def dropLit : List Char → List Char → Option (List Char)
  | [], cs => some cs
  | _ :: _, [] => none
  | l :: ls, c :: cs => if c = l then dropLit ls cs else none

/-- Digits to the number they denote, most significant first. -/
def digitsToNat (cs : List Char) : Nat :=
  cs.foldl (fun acc c => 10 * acc + (c.toNat - 48)) 0

/-- A maximal nonempty run of digits, as matched by a greedy (\d+). -/
def parseNatSeg (cs : List Char) : Option (Nat × List Char) :=
  let ds := cs.takeWhile Char.isDigit
  if ds = [] then none
  else some (digitsToNat ds, cs.dropWhile Char.isDigit)

/-- Regex _TRACK_RE = ^/track/(\d+)/(.+)$ applied by _extract_track_num:
the track number when the address matches (addresses contain no
newline, so (.+)$ is a nonempty tail). -/
def extract_track_num (address : String) : Option Nat :=
  match dropLit "/track/".toList address.toList with
  | none => none
  | some rest =>
    match parseNatSeg rest with
    | none => none
    | some (n, rest2) =>
      match rest2 with
      | '/' :: tail => if tail = [] then none else some n
      | _ => none

/-- Regex _SEND_RE = ^/track/(\d+)/send/(\d+)/(.+)$: track number and the
raw (1-based) send number. -/
def parseSendAddr (address : String) : Option (Nat × Nat) :=
  match dropLit "/track/".toList address.toList with
  | none => none
  | some rest =>
    match parseNatSeg rest with
    | none => none
    | some (n, rest2) =>
      match dropLit "/send/".toList rest2 with
      | none => none
      | some rest3 =>
        match parseNatSeg rest3 with
        | none => none
        | some (k, rest4) =>
          match rest4 with
          | '/' :: tail => if tail = [] then none else some (n, k)
          | _ => none

/-- Regex _FX_PARAM_RE = ^/track/(\d+)/fx/(\d+)/fxparam/(\d+)/(.+)$: track,
fx and param numbers (all raw 1-based wire values). -/
def parseFxParamAddr (address : String) : Option (Nat × Nat × Nat) :=
  match dropLit "/track/".toList address.toList with
  | none => none
  | some rest =>
    match parseNatSeg rest with
    | none => none
    | some (n, rest2) =>
      match dropLit "/fx/".toList rest2 with
      | none => none
      | some rest3 =>
        match parseNatSeg rest3 with
        | none => none
        | some (f, rest4) =>
          match dropLit "/fxparam/".toList rest4 with
          | none => none
          | some rest5 =>
            match parseNatSeg rest5 with
            | none => none
            | some (p, rest6) =>
              match rest6 with
              | '/' :: tail => if tail = [] then none else some (n, f, p)
              | _ => none

/-- Python str.startswith on the character level. -/
def strStartsWith (s pre : String) : Bool :=
  pre.toList.isPrefixOf s.toList

/-- ReaperOSCServer._on_track_float: extract the track number, coerce the
payload with float(), reject volume/pan and vu* values outside [0,1],
otherwise apply via update_track.  `field` is the extra argument bound at
registration ("volume", "pan", "vu", "vu_l" or "vu_r"). -/
def on_track_float (s : ReaperState) (address : String) (field : String)
    (payload : OscPayload) : ReaperState :=
  match extract_track_num address with
  | none => s
  | some track_num =>
    match pyFloat payload with
    | none => s
    | some val =>
      if (field = "volume" ∨ field = "pan") ∧ ¬(0 ≤ val ∧ val ≤ 1) then s
      else if strStartsWith field "vu" ∧ ¬(0 ≤ val ∧ val ≤ 1) then s
      else s.update_track_float track_num field val

/-- ReaperOSCServer._on_master_float ("volume", "pan" or "vu"): coerce,
reject outside [0,1], otherwise apply via update_master. -/
def on_master_float (s : ReaperState) (field : String)
    (payload : OscPayload) : ReaperState :=
  match pyFloat payload with
  | none => s
  | some val =>
    if ¬(0 ≤ val ∧ val ≤ 1) then s
    else s.update_master_float field val

/-- ReaperOSCServer._on_send_float ("volume" or "pan"): match the send
regex, coerce, reject outside [0,1], apply via update_send with the send
index converted from 1-based to 0-based.  The embedding covers the wire
format's 1-based send numbers (send number 0 never occurs on the wire;
in Python it would index the sends list from the end). -/
def on_send_float (s : ReaperState) (address : String) (field : String)
    (payload : OscPayload) : ReaperState :=
  match parseSendAddr address with
  | none => s
  | some (track_num, send_num) =>
    match pyFloat payload with
    | none => s
    | some val =>
      if ¬(0 ≤ val ∧ val ≤ 1) then s
      else s.update_send_float track_num (send_num - 1) field val

/-- ReaperOSCServer._on_fx_param_value: match the fxparam regex, coerce
with float(), and apply via update_fx_param (1-based wire indices
converted to 0-based).  Note: unlike the track/master/send float
handlers, this handler performs no [0,1] range check. -/
def on_fx_param_value (s : ReaperState) (address : String)
    (payload : OscPayload) : ReaperState :=
  match parseFxParamAddr address with
  | none => s
  | some (track_num, fx_num, param_num) =>
    match pyFloat payload with
    | none => s
    | some val =>
      s.update_fx_param_value track_num (fx_num - 1) (param_num - 1) val

/-! ## Playtime streaming client (src/playtime/client.py) -/

/-- The clip engine protocol's SlotPlayState enum (helgobox proto,
imported as pb in client.py); distinct named constants. -/
inductive SlotPlayState where
  | SLOT_PLAY_STATE_UNKNOWN
  | SLOT_PLAY_STATE_STOPPED
  | SLOT_PLAY_STATE_PLAYING
  | SLOT_PLAY_STATE_RECORDING
  | SLOT_PLAY_STATE_SCHEDULED_FOR_PLAY_START
  | SLOT_PLAY_STATE_SCHEDULED_FOR_PLAY_RESTART
  | SLOT_PLAY_STATE_SCHEDULED_FOR_RECORD_START
  | SLOT_PLAY_STATE_SCHEDULED_FOR_RECORD_STOP
  | SLOT_PLAY_STATE_SCHEDULED_FOR_PLAY_STOP
  | SLOT_PLAY_STATE_PAUSED
  | SLOT_PLAY_STATE_IGNITED
deriving DecidableEq

/-- client.py slot-state constants. -/
def SLOT_EMPTY : Nat := 0

def SLOT_STOPPED : Nat := 1

def SLOT_PLAYING : Nat := 2

def SLOT_RECORDING : Nat := 3

def SLOT_QUEUED : Nat := 4

/-- client.py _play_state_to_slot_state: collapse the engine enum to the
five-state model, mirroring the if-chain of the source. -/
def play_state_to_slot_state (ps : SlotPlayState) : Nat :=
  if ps = .SLOT_PLAY_STATE_UNKNOWN then SLOT_EMPTY
  else if ps = .SLOT_PLAY_STATE_STOPPED then SLOT_STOPPED
  else if ps = .SLOT_PLAY_STATE_PLAYING then SLOT_PLAYING
  else if ps = .SLOT_PLAY_STATE_RECORDING then SLOT_RECORDING
  else if ps = .SLOT_PLAY_STATE_SCHEDULED_FOR_PLAY_START ∨
          ps = .SLOT_PLAY_STATE_SCHEDULED_FOR_PLAY_RESTART ∨
          ps = .SLOT_PLAY_STATE_SCHEDULED_FOR_RECORD_START ∨
          ps = .SLOT_PLAY_STATE_IGNITED then SLOT_QUEUED
  else if ps = .SLOT_PLAY_STATE_SCHEDULED_FOR_PLAY_STOP ∨
          ps = .SLOT_PLAY_STATE_SCHEDULED_FOR_RECORD_STOP then SLOT_STOPPED
  else if ps = .SLOT_PLAY_STATE_PAUSED then SLOT_STOPPED
  else SLOT_EMPTY

/-- The clip-grid mirror fields of PlaytimeClient touched by the slot
update path: slot_states[(col,row)] and slot_has_content[(col,row)]. -/
structure PlaytimeSlots where
  slot_states : List ((Nat × Nat) × Nat)
  slot_has_content : List ((Nat × Nat) × Bool)
deriving DecidableEq

/-- One entry of a GetOccasionalSlotUpdatesReply.slot_updates batch: the
oneof is either a play_state or a complete_persistent_data document.
For the latter, `clips_nonempty` is the outcome of the source's
json.loads + "clips" extraction in _parse_slot_persistent_data:
none models a JSONDecodeError, some b a document with b = (clips ≠ []). -/
inductive SlotUpdate where
  | play_state (col row : Nat) (ps : SlotPlayState)
  | complete_persistent_data (col row : Nat) (clips_nonempty : Option Bool)
deriving DecidableEq

/-- The body of the for-loop of PlaytimeClient._process_slot_updates,
threading (state, changed-flag). -/
def process_slot_update (acc : PlaytimeSlots × Bool) (u : SlotUpdate) :
    PlaytimeSlots × Bool :=
  match u with
  | .play_state col row ps =>
    let new_state := play_state_to_slot_state ps
    let old_state := dictGet acc.1.slot_states (col, row)
    if old_state ≠ some new_state then
      ({ acc.1 with
          slot_states := dictSet acc.1.slot_states (col, row) new_state },
        true)
    else acc
  | .complete_persistent_data col row clips_nonempty =>
    match clips_nonempty with
    | none => acc
    | some b =>
      ({ acc.1 with
          slot_has_content := dictSet acc.1.slot_has_content (col, row) b },
        acc.2)

/-- PlaytimeClient._process_slot_updates: fold the batch with the changed
flag starting False; returns (new state, changed). -/
def process_slot_updates (s : PlaytimeSlots) (batch : List SlotUpdate) :
    PlaytimeSlots × Bool :=
  batch.foldl process_slot_update (s, false)

/-- The publish step of the _stream_slot_updates loop body: one coalesced
playtime_state_changed event when the batch changed anything, none
otherwise (event bus attached). -/
def slot_batch_events (s : PlaytimeSlots) (batch : List SlotUpdate) : Nat :=
  if (process_slot_updates s batch).2 then 1 else 0

/-- PlaytimeClient.get_slot_state. -/
def get_slot_state (s : PlaytimeSlots) (col row : Nat) : Nat :=
  (dictGet s.slot_states (col, row)).getD SLOT_EMPTY

/-- PlaytimeClient.get_grid_state: grid[row][col], with Stopped-without-
content renormalized to Empty. -/
def get_grid_state (s : PlaytimeSlots) (num_cols num_rows : Nat)
    (col_offset row_offset : Nat) : List (List Nat) :=
  (List.range num_rows).map (fun row =>
    (List.range num_cols).map (fun col =>
      let ac := col + col_offset
      let ar := row + row_offset
      let state := (dictGet s.slot_states (ac, ar)).getD SLOT_EMPTY
      if state == SLOT_STOPPED &&
          !((dictGet s.slot_has_content (ac, ar)).getD false) then
        SLOT_EMPTY
      else state))

/-! ## Event bus (src/core/event_bus.py) -/

/-- A subscriber callback, with an id so that invocation order is
observable.  `run` acts on the world σ the handler closes over; none
models the handler raising an exception. -/
structure Subscriber (σ : Type) where
  id : Nat
  run : σ → Option σ

/-- EventBus._subscribers: event type → callback list, insertion order. -/
structure EventBus (σ : Type) where
  subscribers : List (String × List (Subscriber σ))

/-- EventBus.subscribe: create the list for a new type, append the
callback. -/
def EventBus.subscribe {σ : Type} (bus : EventBus σ) (event_type : String)
    (cb : Subscriber σ) : EventBus σ :=
  { subscribers := dictSet bus.subscribers event_type
      (((dictGet bus.subscribers event_type).getD []) ++ [cb]) }

/-- EventBus.publish: snapshot the subscriber list of the type, then
invoke each callback in order; a callback that raises is caught and
logged (its world contribution dropped) and dispatch continues.  Returns
the final world and the ids invoked, in invocation order. -/
def EventBus.publish {σ : Type} (bus : EventBus σ) (event_type : String)
    (world : σ) : σ × List Nat :=
  let callbacks := (dictGet bus.subscribers event_type).getD []
  callbacks.foldl (fun acc cb =>
    match cb.run acc.1 with
    | some w => (w, acc.2 ++ [cb.id])
    | none => (acc.1, acc.2 ++ [cb.id])) (world, [])

/-! ## Mode dispatch (src/main.py) -/

/-- The fixed set of modes constructed by Push2ReaperDaemon.__init__. -/
inductive ModeId where
  | mixer
  | scale
  | drum
  | device
  | session
  | browser
deriving DecidableEq

/-- The dispatcher's mode fields: _mode and _previous_mode. -/
structure DaemonModes where
  mode : ModeId
  previous_mode : Option ModeId
deriving DecidableEq

/-- Observable mode lifecycle and delivery actions, in call order. -/
inductive ModeEvent where
  | enter (m : ModeId)
  | exit (m : ModeId)
  | deliver (m : ModeId) (button : Nat)
deriving DecidableEq

/-- Push2ReaperDaemon.switch_mode: no-op when already active, else
exit the active mode, activate, enter. -/
def switch_mode (d : DaemonModes) (new_mode : ModeId) :
    DaemonModes × List ModeEvent :=
  if new_mode = d.mode then (d, [])
  else ({ d with mode := new_mode }, [.exit d.mode, .enter new_mode])

/-- Push2ReaperDaemon.toggle_scale_mode: leaving scale restores
_previous_mode (mixer when none was saved) and clears the pointer;
entering scale saves the current mode, exits it and enters scale. -/
def toggle_scale_mode (d : DaemonModes) : DaemonModes × List ModeEvent :=
  if d.mode = .scale then
    let restored := d.previous_mode.getD .mixer
    ({ mode := restored, previous_mode := none },
      [.exit .scale, .enter restored])
  else
    ({ mode := .scale, previous_mode := some d.mode },
      [.exit d.mode, .enter .scale])

/-- The tail of Push2ReaperDaemon._on_button (lines 269-277), reached
when no global binding intercepted the button: deliver to the active
mode; when unhandled and the active mode is the scale overlay, toggle
the overlay off and redeliver the same event to the restored mode.
`handles m b` is the handled/unhandled return of mode m's on_button. -/
def dispatch_mode_button (handles : ModeId → Nat → Bool) (d : DaemonModes)
    (button : Nat) : DaemonModes × List ModeEvent :=
  let delivered := [ModeEvent.deliver d.mode button]
  if handles d.mode button then (d, delivered)
  else if d.mode = .scale then
    let p := toggle_scale_mode d
    (p.1, delivered ++ p.2 ++ [.deliver p.1.mode button])
  else (d, delivered)

/-! ## Differential pad output (src/push2/pads.py) -/

/-- PadManager._colors, the last-written-color cache: an 8x8 list of
lists in the source, modelled as a map over (row, col).  Pad colors are
nonempty name strings ("black", "red", ...); the empty string is the
sentinel invalidate_cache fills in, never a hardware color. -/
structure PadManager where
  colors : Nat → Nat → String

/-- PadManager.__init__: cache starts all "black". -/
def PadManager.init : PadManager := ⟨fun _ _ => "black"⟩

/-- PadManager.set_color: no-op when the cache already holds the color,
otherwise write the hardware (returned write list) and update the
cache. -/
def PadManager.set_color (p : PadManager) (row col : Nat) (color : String) :
    PadManager × List (Nat × Nat × String) :=
  if p.colors row col = color then (p, [])
  else
    (⟨fun r c => if r = row ∧ c = col then color else p.colors r c⟩,
      [(row, col, color)])

/-- PadManager.invalidate_cache: reset every cache cell to "" without
writing, so the next set_color of any real color re-emits. -/
def PadManager.invalidate_cache (_ : PadManager) : PadManager :=
  ⟨fun _ _ => ""⟩

/-! ## Helper lemmas -/

theorem clamp01_nonneg (v : ℚ) : 0 ≤ clamp01 v :=
  le_max_left 0 _

theorem clamp01_le_one (v : ℚ) : clamp01 v ≤ 1 :=
  max_le (by norm_num) (min_le_left _ _)

theorem clamp01_of_mem (v : ℚ) (h0 : 0 ≤ v) (h1 : v ≤ 1) : clamp01 v = v := by
  unfold clamp01
  rw [min_eq_right h1, max_eq_right h0]

theorem clamp01_idem (v : ℚ) : clamp01 (clamp01 v) = clamp01 v :=
  clamp01_of_mem _ (clamp01_nonneg v) (clamp01_le_one v)

theorem find?_key_replace_ne {κ α : Type} [DecidableEq κ]
    (m : List (κ × α)) (k k' : κ) (v : α) (h : k' ≠ k) :
    List.find? (fun p => p.1 == k')
        (m.map (fun p => if p.1 = k then (k, v) else p)) =
      List.find? (fun p => p.1 == k') m := by
  induction m with
  | nil => rfl
  | cons p m ih =>
    by_cases hp : p.1 = k
    · simp only [List.map_cons, if_pos hp]
      rw [List.find?_cons_of_neg _ (by simp [Ne.symm h]),
        List.find?_cons_of_neg _ (by simp [hp, Ne.symm h]), ih]
    · simp only [List.map_cons, if_neg hp]
      by_cases hp' : p.1 = k'
      · rw [List.find?_cons_of_pos _ (by simp [hp']),
          List.find?_cons_of_pos _ (by simp [hp'])]
      · rw [List.find?_cons_of_neg _ (by simp [hp']),
          List.find?_cons_of_neg _ (by simp [hp']), ih]

theorem find?_key_replace_self {κ α : Type} [DecidableEq κ]
    (m : List (κ × α)) (k : κ) (v : α)
    (h : (List.find? (fun p => p.1 == k) m).isSome) :
    List.find? (fun p => p.1 == k)
        (m.map (fun p => if p.1 = k then (k, v) else p)) = some (k, v) := by
  induction m with
  | nil => simp at h
  | cons p m ih =>
    by_cases hp : p.1 = k
    · simp only [List.map_cons, if_pos hp]
      rw [List.find?_cons_of_pos _ (by simp)]
    · simp only [List.map_cons, if_neg hp]
      rw [List.find?_cons_of_neg _ (by simp [hp])]
      rw [List.find?_cons_of_neg _ (by simp [hp])] at h
      exact ih h

theorem dictGet_dictSet {κ α : Type} [DecidableEq κ]
    (m : List (κ × α)) (k k' : κ) (v : α) :
    dictGet (dictSet m k v) k' = if k' = k then some v else dictGet m k' := by
  unfold dictGet dictSet
  by_cases hmem : (List.find? (fun p => p.1 == k) m).isSome
  · rw [if_pos hmem]
    by_cases h : k' = k
    · subst h
      rw [find?_key_replace_self m k' v hmem]
      simp
    · rw [find?_key_replace_ne m k k' v h, if_neg h]
  · rw [if_neg hmem, List.find?_append]
    by_cases h : k' = k
    · subst h
      have hm : List.find? (fun p => p.1 == k') m = none := by
        cases hh : List.find? (fun p => p.1 == k') m
        · rfl
        · rw [hh] at hmem
          simp at hmem
      rw [hm, if_pos rfl]
      simp
    · rw [if_neg h]
      have htail : List.find? (fun p => p.1 == k') [(k, v)] = none := by
        rw [List.find?_cons_of_neg _ (by simp [Ne.symm h])]
        rfl
      rw [htail]
      simp

theorem range_map_getD {α : Type} (f : Nat → α) (n j : Nat) (d : α)
    (h : j < n) : (((List.range n).map f).getD j d) = f j := by
  rw [List.getD_eq_getElem?_getD, List.getElem?_map, List.getElem?_range h]
  rfl

/-! ## C7: volume nudge -/

/-- C7: nudge_track_volume returns clamp(v + k*0.015, 0, 1) and sends
exactly that absolute value; nudging 0.5 by +1 returns 0.515; ten
consecutive +1 nudges from 0.5 return min(1, 0.5 + 10*0.015); the result
never leaves [0,1]. -/
theorem nudge_track_volume_clamped :
    (∀ (t : Nat) (v : ℚ) (k : ℤ),
      (nudge_track_volume t v k).1 = max 0 (min 1 (v + (k : ℚ) * 0.015)) ∧
      (nudge_track_volume t v k).2 =
        { address := "/track/" ++ toString t ++ "/volume"
          args := [(nudge_track_volume t v k).1] } ∧
      0 ≤ (nudge_track_volume t v k).1 ∧ (nudge_track_volume t v k).1 ≤ 1) ∧
    (nudge_track_volume 3 0.5 1).1 = 0.515 ∧
    nudgeIter 3 10 0.5 = min 1 (0.5 + 10 * 0.015) := by
  refine ⟨fun t v k => ⟨rfl, ?_, clamp01_nonneg _, clamp01_le_one _⟩, ?_, ?_⟩
  · simp [nudge_track_volume, set_track_volume, clamp01_idem]
  · norm_num [nudge_track_volume, clamp01, VOLUME_STEP, max_def, min_def]
  · norm_num [nudgeIter, nudge_track_volume, set_track_volume, clamp01,
      VOLUME_STEP, max_def, min_def]

/-! ## C9: differential pad output -/

theorem set_color_cache_holds (p : PadManager) (row col : Nat)
    (color : String) : (p.set_color row col color).1.colors row col = color := by
  unfold PadManager.set_color
  by_cases h : p.colors row col = color
  · rw [if_pos h]
    exact h
  · rw [if_neg h]
    simp

/-- C9: set_color is a no-op when the cache already holds the color, so
two consecutive identical calls issue exactly one hardware write; after
invalidate_cache the next set_color of any real (nonempty) color issues
a write even when that color was the last one written. -/
theorem set_color_differential :
    (∀ (p : PadManager) (row col : Nat) (color : String),
      p.colors row col = color → p.set_color row col color = (p, [])) ∧
    (∀ (p : PadManager) (row col : Nat) (color : String),
      p.colors row col ≠ color →
        (p.set_color row col color).2 = [(row, col, color)] ∧
        ((p.set_color row col color).1.set_color row col color).2 = []) ∧
    (∀ (p : PadManager) (row col : Nat) (color : String), color ≠ "" →
      (p.invalidate_cache.set_color row col color).2 = [(row, col, color)]) := by
  have noop : ∀ (p : PadManager) (row col : Nat) (color : String),
      p.colors row col = color → p.set_color row col color = (p, []) := by
    intro p row col color h
    unfold PadManager.set_color
    rw [if_pos h]
  refine ⟨noop, fun p row col color h => ⟨?_, ?_⟩, fun p row col color h => ?_⟩
  · unfold PadManager.set_color
    rw [if_neg h]
  · rw [noop _ row col color (set_color_cache_holds p row col color)]
  · unfold PadManager.set_color PadManager.invalidate_cache
    rw [if_neg (fun hh => h hh.symm)]

/-- Witness for C9 at pad (0,0): the cache starts "black", so setting
"black" writes nothing, setting "red" twice writes once, and setting
"red" right after invalidate_cache writes again. -/
theorem set_color_differential_witness :
    PadManager.init.set_color 0 0 "black" = (PadManager.init, []) ∧
    ((PadManager.init.set_color 0 0 "red").2 = [(0, 0, "red")] ∧
      ((PadManager.init.set_color 0 0 "red").1.set_color 0 0 "red").2 = []) ∧
    (PadManager.init.invalidate_cache.set_color 0 0 "red").2 =
      [(0, 0, "red")] :=
  ⟨set_color_differential.1 PadManager.init 0 0 "black" rfl,
    set_color_differential.2.1 PadManager.init 0 0 "red" (by decide),
    set_color_differential.2.2 PadManager.init 0 0 "red" (by decide)⟩

/-! ## C2: play-state collapse -/

/-- C2 counterexample: the claim sends every scheduled variant to Queued,
but the source maps SLOT_PLAY_STATE_SCHEDULED_FOR_PLAY_STOP (and
..._SCHEDULED_FOR_RECORD_STOP) to SLOT_STOPPED, not SLOT_QUEUED. -/
theorem play_state_scheduled_stop_not_queued :
    play_state_to_slot_state .SLOT_PLAY_STATE_SCHEDULED_FOR_PLAY_STOP =
        SLOT_STOPPED ∧
    play_state_to_slot_state .SLOT_PLAY_STATE_SCHEDULED_FOR_RECORD_STOP =
        SLOT_STOPPED ∧
    SLOT_STOPPED ≠ SLOT_QUEUED := by
  refine ⟨rfl, rfl, by decide⟩

/-- C2 amended: scheduled-for-play-start, play-restart, record-start and
ignited map to Queued; scheduled-for-play-stop and record-stop map to
Stopped; Paused maps to Stopped. -/
theorem play_state_to_slot_state_spec :
    play_state_to_slot_state .SLOT_PLAY_STATE_SCHEDULED_FOR_PLAY_START =
        SLOT_QUEUED ∧
    play_state_to_slot_state .SLOT_PLAY_STATE_SCHEDULED_FOR_PLAY_RESTART =
        SLOT_QUEUED ∧
    play_state_to_slot_state .SLOT_PLAY_STATE_SCHEDULED_FOR_RECORD_START =
        SLOT_QUEUED ∧
    play_state_to_slot_state .SLOT_PLAY_STATE_IGNITED = SLOT_QUEUED ∧
    play_state_to_slot_state .SLOT_PLAY_STATE_SCHEDULED_FOR_PLAY_STOP =
        SLOT_STOPPED ∧
    play_state_to_slot_state .SLOT_PLAY_STATE_SCHEDULED_FOR_RECORD_STOP =
        SLOT_STOPPED ∧
    play_state_to_slot_state .SLOT_PLAY_STATE_PAUSED = SLOT_STOPPED :=
  ⟨rfl, rfl, rfl, rfl, rfl, rfl, rfl⟩

/-! ## C6: exclusive select-and-arm -/

/-- C6: for every target track t in 1..8, select_and_arm_track with bank
size 8 emits a prefix of exactly 14 messages that deselect (select 0)
and disarm (recarm 0) every other track of the bank and never address
the target, followed by the target's select 1 and recarm 1. -/
theorem select_and_arm_track_exclusive (t : Nat) (h1 : 1 ≤ t) (h8 : t ≤ 8) :
    ∃ pre,
      select_and_arm_track t 8 = pre ++ [selMsg t 1, armMsg t 1] ∧
      pre.length = 14 ∧
      (∀ i ∈ Finset.Icc 1 8, i ≠ t → selMsg i 0 ∈ pre ∧ armMsg i 0 ∈ pre) ∧
      (∀ m ∈ pre, m.args = [0] ∧ m.address ≠ (selMsg t 1).address ∧
        m.address ≠ (armMsg t 1).address) := by
  refine ⟨(select_and_arm_track t 8).take 14, ?_⟩
  interval_cases t <;> decide

/-- Witness for C6 at t = 3. -/
theorem select_and_arm_track_exclusive_witness :
    ∃ pre,
      select_and_arm_track 3 8 = pre ++ [selMsg 3 1, armMsg 3 1] ∧
      pre.length = 14 ∧
      (∀ i ∈ Finset.Icc 1 8, i ≠ 3 → selMsg i 0 ∈ pre ∧ armMsg i 0 ∈ pre) ∧
      (∀ m ∈ pre, m.args = [0] ∧ m.address ≠ (selMsg 3 1).address ∧
        m.address ≠ (armMsg 3 1).address) :=
  select_and_arm_track_exclusive 3 (by decide) (by decide)

/-! ## C8: event bus isolation and ordering -/

theorem publish_foldl_trace {σ : Type} (cbs : List (Subscriber σ)) (w : σ)
    (tr : List Nat) :
    (cbs.foldl (fun acc cb =>
      match cb.run acc.1 with
      | some w2 => (w2, acc.2 ++ [cb.id])
      | none => (acc.1, acc.2 ++ [cb.id])) (w, tr)).2 =
      tr ++ cbs.map Subscriber.id := by
  induction cbs generalizing w tr with
  | nil => simp
  | cons cb cbs ih =>
    simp only [List.foldl_cons, List.map_cons]
    cases hr : cb.run w <;> simp [hr, ih]

theorem publish_foldl_world {σ : Type} (cbs : List (Subscriber σ)) (w : σ)
    (tr : List Nat) :
    (cbs.foldl (fun acc cb =>
      match cb.run acc.1 with
      | some w2 => (w2, acc.2 ++ [cb.id])
      | none => (acc.1, acc.2 ++ [cb.id])) (w, tr)).1 =
      cbs.foldl (fun w cb => (cb.run w).getD w) w := by
  induction cbs generalizing w tr with
  | nil => rfl
  | cons cb cbs ih =>
    simp only [List.foldl_cons]
    cases hr : cb.run w <;> simp [hr, ih]

/-- C8: publish invokes every subscriber of the type present at publish
time, in subscription order (ids in list order, the subscribe operation
appending); a raising handler (run = none) neither stops the remaining
dispatch nor reaches the publisher — publish returns normally, the
failing handler contributing no world change. -/
theorem publish_order_and_isolation :
    ∀ (σ : Type) (bus : EventBus σ) (event_type : String) (world : σ),
      (bus.publish event_type world).2 =
        ((dictGet bus.subscribers event_type).getD []).map Subscriber.id ∧
      (bus.publish event_type world).1 =
        ((dictGet bus.subscribers event_type).getD []).foldl
          (fun w cb => (cb.run w).getD w) world ∧
      ∀ cb, ((bus.subscribe event_type cb).publish event_type world).2 =
        (((dictGet bus.subscribers event_type).getD []).map Subscriber.id)
          ++ [cb.id] := by
  intro σ bus event_type world
  refine ⟨?_, ?_, ?_⟩
  · exact publish_foldl_trace _ world []
  · exact publish_foldl_world _ world []
  · intro cb
    unfold EventBus.publish EventBus.subscribe
    simp only [dictGet_dictSet, if_pos rfl, Option.getD_some]
    rw [publish_foldl_trace]
    simp

/-! ## C4: unhandled input during overlay -/

/-- C4: when a button reaches the scale overlay and its handler returns
unhandled, the dispatcher exits the overlay, reactivates the saved mode
(clearing the pointer) and redelivers the same button exactly once to
the restored mode — the full action trace is: deliver to overlay, exit
overlay, enter restored, deliver to restored, so the event is neither
lost nor delivered twice to the overlay. -/
theorem overlay_unhandled_redelivers
    (handles : ModeId → Nat → Bool) (d : DaemonModes) (button : Nat)
    (m : ModeId) (hd : d.mode = .scale) (hp : d.previous_mode = some m)
    (hm : m ≠ .scale) (hu : handles .scale button = false) :
    (dispatch_mode_button handles d button).1.mode = m ∧
    (dispatch_mode_button handles d button).1.previous_mode = none ∧
    (dispatch_mode_button handles d button).2 =
      [.deliver .scale button, .exit .scale, .enter m, .deliver m button] ∧
    (dispatch_mode_button handles d button).2.count (.deliver m button) = 1 ∧
    (dispatch_mode_button handles d button).2.count
      (.deliver .scale button) = 1 := by
  have htr : dispatch_mode_button handles d button =
      (⟨m, none⟩,
        [.deliver .scale button, .exit .scale, .enter m, .deliver m button]) := by
    unfold dispatch_mode_button toggle_scale_mode
    rw [hd, hu]
    simp [hp]
  rw [htr]
  refine ⟨rfl, rfl, rfl, ?_, ?_⟩ <;>
    simp [List.count_cons, List.count_nil, hm, Ne.symm hm]

/-- Witness for C4: overlay active over mixer, a handler that accepts
nothing, button 42. -/
theorem overlay_unhandled_redelivers_witness :
    (dispatch_mode_button (fun _ _ => false) ⟨.scale, some .mixer⟩ 42).1.mode
        = .mixer ∧
    (dispatch_mode_button (fun _ _ => false)
        ⟨.scale, some .mixer⟩ 42).1.previous_mode = none ∧
    (dispatch_mode_button (fun _ _ => false) ⟨.scale, some .mixer⟩ 42).2 =
      [.deliver .scale 42, .exit .scale, .enter .mixer, .deliver .mixer 42] ∧
    (dispatch_mode_button (fun _ _ => false) ⟨.scale, some .mixer⟩ 42).2.count
      (.deliver .mixer 42) = 1 ∧
    (dispatch_mode_button (fun _ _ => false) ⟨.scale, some .mixer⟩ 42).2.count
      (.deliver .scale 42) = 1 :=
  overlay_unhandled_redelivers (fun _ _ => false) ⟨.scale, some .mixer⟩ 42
    .mixer rfl rfl (by decide) rfl

/-! ## C5: overlay toggle round trip -/

/-- C5: from any mode M other than the overlay, toggling the scale
overlay on and off again leaves M active with the saved pointer cleared,
and across the pair each of M and the overlay gets exactly one exit and
one enter, in paired order (toggle one: exit M, enter scale; toggle two:
exit scale, enter M). -/
theorem toggle_overlay_round_trip (d : DaemonModes) (M : ModeId)
    (hd : d.mode = M) (hM : M ≠ .scale) :
    (toggle_scale_mode (toggle_scale_mode d).1).1.mode = M ∧
    (toggle_scale_mode (toggle_scale_mode d).1).1.previous_mode = none ∧
    (toggle_scale_mode d).2 = [.exit M, .enter .scale] ∧
    (toggle_scale_mode (toggle_scale_mode d).1).2 = [.exit .scale, .enter M] ∧
    (((toggle_scale_mode d).2 ++
        (toggle_scale_mode (toggle_scale_mode d).1).2).count (.enter M) = 1 ∧
      ((toggle_scale_mode d).2 ++
        (toggle_scale_mode (toggle_scale_mode d).1).2).count (.exit M) = 1 ∧
      ((toggle_scale_mode d).2 ++
        (toggle_scale_mode (toggle_scale_mode d).1).2).count
          (.enter .scale) = 1 ∧
      ((toggle_scale_mode d).2 ++
        (toggle_scale_mode (toggle_scale_mode d).1).2).count
          (.exit .scale) = 1) := by
  subst hd
  have h1 : toggle_scale_mode d =
      (⟨.scale, some d.mode⟩, [.exit d.mode, .enter .scale]) := by
    unfold toggle_scale_mode
    rw [if_neg hM]
  have h2 : toggle_scale_mode (⟨.scale, some d.mode⟩ : DaemonModes) =
      (⟨d.mode, none⟩, [.exit .scale, .enter d.mode]) := by
    unfold toggle_scale_mode
    rw [if_pos rfl]
    rfl
  rw [h1]
  simp only [h2]
  simp [List.count_cons, List.count_nil, hM, Ne.symm hM]

/-- Witness for C5 starting from drum mode. -/
theorem toggle_overlay_round_trip_witness :
    (toggle_scale_mode (toggle_scale_mode ⟨.drum, none⟩).1).1.mode = .drum ∧
    (toggle_scale_mode
        (toggle_scale_mode ⟨.drum, none⟩).1).1.previous_mode = none ∧
    (toggle_scale_mode (⟨.drum, none⟩ : DaemonModes)).2 =
      [.exit .drum, .enter .scale] ∧
    (toggle_scale_mode (toggle_scale_mode ⟨.drum, none⟩).1).2 =
      [.exit .scale, .enter .drum] ∧
    (((toggle_scale_mode (⟨.drum, none⟩ : DaemonModes)).2 ++
        (toggle_scale_mode (toggle_scale_mode ⟨.drum, none⟩).1).2).count
          (.enter .drum) = 1 ∧
      ((toggle_scale_mode (⟨.drum, none⟩ : DaemonModes)).2 ++
        (toggle_scale_mode (toggle_scale_mode ⟨.drum, none⟩).1).2).count
          (.exit .drum) = 1 ∧
      ((toggle_scale_mode (⟨.drum, none⟩ : DaemonModes)).2 ++
        (toggle_scale_mode (toggle_scale_mode ⟨.drum, none⟩).1).2).count
          (.enter .scale) = 1 ∧
      ((toggle_scale_mode (⟨.drum, none⟩ : DaemonModes)).2 ++
        (toggle_scale_mode (toggle_scale_mode ⟨.drum, none⟩).1).2).count
          (.exit .scale) = 1) :=
  toggle_overlay_round_trip ⟨.drum, none⟩ .drum rfl (by decide)

/-! ## C3: coalesced slot-batch events -/

theorem process_slot_update_flag (acc : PlaytimeSlots × Bool) (u : SlotUpdate) :
    process_slot_update acc u =
      ((process_slot_update (acc.1, false) u).1,
        acc.2 || (process_slot_update (acc.1, false) u).2) := by
  rcases acc with ⟨s, b⟩
  cases u with
  | play_state col row ps =>
    unfold process_slot_update
    by_cases h :
      dictGet s.slot_states (col, row) ≠ some (play_state_to_slot_state ps)
    · simp [h]
    · simp [h]
  | complete_persistent_data col row pd =>
    cases pd <;> simp [process_slot_update]

theorem process_slot_updates_flag (batch : List SlotUpdate)
    (s : PlaytimeSlots) (b : Bool) :
    batch.foldl process_slot_update (s, b) =
      ((batch.foldl process_slot_update (s, false)).1,
        b || (batch.foldl process_slot_update (s, false)).2) := by
  induction batch generalizing s b with
  | nil => simp
  | cons u batch ih =>
    simp only [List.foldl_cons]
    rcases hps : process_slot_update (s, false) u with ⟨s1, c1⟩
    rw [process_slot_update_flag (s, b) u, hps]
    simp only
    rw [ih s1 (b || c1), ih s1 c1]
    simp [Bool.or_assoc]

theorem process_slot_update_flag_true (s : PlaytimeSlots) (u : SlotUpdate) :
    (process_slot_update (s, false) u).2 = true ↔
      ∃ col row ps, u = .play_state col row ps ∧
        dictGet s.slot_states (col, row) ≠
          some (play_state_to_slot_state ps) := by
  cases u with
  | play_state col row ps =>
    unfold process_slot_update
    by_cases h :
      dictGet s.slot_states (col, row) ≠ some (play_state_to_slot_state ps)
    · simp only [if_pos h]
      exact iff_of_true trivial ⟨col, row, ps, rfl, h⟩
    · simp only [if_neg h]
      simp only [not_not] at h
      simp [h]
  | complete_persistent_data col row pd =>
    cases pd <;> simp [process_slot_update]

theorem process_slot_updates_changed_iff (s : PlaytimeSlots)
    (batch : List SlotUpdate) :
    (process_slot_updates s batch).2 = true ↔
      ∃ i col row ps, batch[i]? = some (.play_state col row ps) ∧
        dictGet (process_slot_updates s (batch.take i)).1.slot_states
            (col, row) ≠ some (play_state_to_slot_state ps) := by
  induction batch generalizing s with
  | nil => simp [process_slot_updates]
  | cons u batch ih =>
    rcases hps : process_slot_update (s, false) u with ⟨s1, c1⟩
    have hcons : process_slot_updates s (u :: batch) =
        batch.foldl process_slot_update (process_slot_update (s, false) u) :=
      rfl
    have hfold : ∀ l : List SlotUpdate,
        l.foldl process_slot_update (s1, false) = process_slot_updates s1 l :=
      fun _ => rfl
    have hpre : ∀ i,
        process_slot_updates s ((u :: batch).take (i + 1)) =
          ((process_slot_updates s1 (batch.take i)).1,
            c1 || (process_slot_updates s1 (batch.take i)).2) := by
      intro i
      have h0 : process_slot_updates s ((u :: batch).take (i + 1)) =
          (batch.take i).foldl process_slot_update
            (process_slot_update (s, false) u) := rfl
      rw [h0, hps, process_slot_updates_flag (batch.take i) s1 c1, hfold]
    rw [hcons, hps, process_slot_updates_flag batch s1 c1, hfold]
    cases c1 with
    | false =>
      simp only [Bool.false_or]
      rw [ih s1]
      have hu : ¬∃ col row ps, u = .play_state col row ps ∧
          dictGet s.slot_states (col, row) ≠
            some (play_state_to_slot_state ps) := by
        rw [← process_slot_update_flag_true s u, hps]
        simp
      constructor
      · rintro ⟨i, col, row, ps, hi, hne⟩
        refine ⟨i + 1, col, row, ps, by simpa using hi, ?_⟩
        rw [hpre i]
        simpa using hne
      · rintro ⟨i, col, row, ps, hi, hne⟩
        cases i with
        | zero =>
          exact absurd ⟨col, row, ps, by simpa using hi, by
            simpa [process_slot_updates] using hne⟩ hu
        | succ i =>
          refine ⟨i, col, row, ps, by simpa using hi, ?_⟩
          rw [hpre i] at hne
          simpa using hne
    | true =>
      have hu : ∃ col row ps, u = .play_state col row ps ∧
          dictGet s.slot_states (col, row) ≠
            some (play_state_to_slot_state ps) := by
        rw [← process_slot_update_flag_true s u, hps]
      rcases hu with ⟨col, row, ps, hueq, hne⟩
      refine iff_of_true (by simp) ⟨0, col, row, ps, by simpa using hueq, ?_⟩
      simpa [process_slot_updates] using hne

/-- C3 counterexample: a batch holding only a persistent-data update
that changes slot (2,3)'s content alters the observable grid returned
by get_grid_state, yet the changed flag stays false and zero
playtime_state_changed events are published for the batch. -/
theorem slot_batch_content_change_publishes_nothing :
    slot_batch_events ⟨[((2, 3), SLOT_STOPPED)], [((2, 3), false)]⟩
        [.complete_persistent_data 2 3 (some true)] = 0 ∧
    get_grid_state (process_slot_updates
          ⟨[((2, 3), SLOT_STOPPED)], [((2, 3), false)]⟩
          [.complete_persistent_data 2 3 (some true)]).1 8 8 0 0 ≠
      get_grid_state ⟨[((2, 3), SLOT_STOPPED)], [((2, 3), false)]⟩ 8 8 0 0 ∧
    dictGet (process_slot_updates
          ⟨[((2, 3), SLOT_STOPPED)], [((2, 3), false)]⟩
          [.complete_persistent_data 2 3 (some true)]).1.slot_has_content
        (2, 3) = some true := by
  refine ⟨by decide, by decide, by decide⟩

/-- C3 amended: at most one playtime_state_changed event is published
per slot batch, exactly one when the batch applied a play-state change
(characterized exactly: some update is a play_state whose collapsed
value differs from the stored one at its point in the batch) and none
otherwise — persistent-data (content-only) changes never trigger the
event; and after a batch holding only a play_state update for slot
(2,3) to Playing, get_grid_state reports Playing at [row 3][col 2]. -/
theorem slot_batch_events_coalesced :
    (∀ (s : PlaytimeSlots) (batch : List SlotUpdate),
      slot_batch_events s batch ≤ 1) ∧
    (∀ (s : PlaytimeSlots) (batch : List SlotUpdate),
      ((process_slot_updates s batch).2 = true →
        slot_batch_events s batch = 1) ∧
      ((process_slot_updates s batch).2 = false →
        slot_batch_events s batch = 0)) ∧
    (∀ (s : PlaytimeSlots) (batch : List SlotUpdate),
      (process_slot_updates s batch).2 = true ↔
        ∃ i col row ps, batch[i]? = some (.play_state col row ps) ∧
          dictGet (process_slot_updates s (batch.take i)).1.slot_states
              (col, row) ≠ some (play_state_to_slot_state ps)) ∧
    slot_batch_events ⟨[], []⟩
        [.play_state 2 3 .SLOT_PLAY_STATE_PLAYING] = 1 ∧
    ((get_grid_state (process_slot_updates ⟨[], []⟩
          [.play_state 2 3 .SLOT_PLAY_STATE_PLAYING]).1 8 8 0 0).getD 3
        []).getD 2 0 = SLOT_PLAYING := by
  refine ⟨fun s batch => ?_, fun s batch => ⟨fun h => ?_, fun h => ?_⟩,
    process_slot_updates_changed_iff, by decide, by decide⟩
  · unfold slot_batch_events
    by_cases h : (process_slot_updates s batch).2 = true <;> simp [h]
  · simp [slot_batch_events, h]
  · simp [slot_batch_events, h]

/-- Witness for C3's amended theorem: the single-play-state batch
changes state, so exactly one event is published. -/
theorem slot_batch_events_coalesced_witness :
    slot_batch_events ⟨[], []⟩
        [.play_state 2 3 .SLOT_PLAY_STATE_PLAYING] = 1 :=
  (slot_batch_events_coalesced.2.1 ⟨[], []⟩
    [.play_state 2 3 .SLOT_PLAY_STATE_PLAYING]).1 (by decide)

/-! ## C10: bank reads never mutate the store -/

/-- C10: get_bank_tracks leaves the store exactly as it was and returns
exactly 8 entries; an entry whose index is in the track dict is the
stored TrackInfo, and an entry past the populated pool is a fresh
default-initialized TrackInfo for that index (nothing is inserted). -/
theorem get_bank_tracks_frame :
    ∀ s : ReaperState,
      s.get_bank_tracks.1 = s ∧
      s.get_bank_tracks.2.length = 8 ∧
      (∀ j, j < 8 →
        (dictGet s.tracks (s.bank_offset + 1 + j) = none →
          s.get_bank_tracks.2.getD j (TrackInfo.init 0) =
            TrackInfo.init (s.bank_offset + 1 + j)) ∧
        (∀ t, dictGet s.tracks (s.bank_offset + 1 + j) = some t →
          s.get_bank_tracks.2.getD j (TrackInfo.init 0) = t)) := by
  intro s
  refine ⟨rfl, by simp [ReaperState.get_bank_tracks],
    fun j hj => ⟨fun hn => ?_, fun t ht => ?_⟩⟩
  · unfold ReaperState.get_bank_tracks
    rw [range_map_getD _ _ _ _ hj, hn]
    rfl
  · unfold ReaperState.get_bank_tracks
    rw [range_map_getD _ _ _ _ hj, ht]
    rfl

/-- Witness for C10: a store with one populated track, read past the
pool (bank slot 1 addresses track 2, which is absent from the dict). -/
theorem get_bank_tracks_frame_witness :
    (ReaperState.init 1).get_bank_tracks.1 = ReaperState.init 1 ∧
    (ReaperState.init 1).get_bank_tracks.2.getD 1 (TrackInfo.init 0) =
      TrackInfo.init ((ReaperState.init 1).bank_offset + 1 + 1) :=
  ⟨(get_bank_tracks_frame (ReaperState.init 1)).1,
    ((get_bank_tracks_frame (ReaperState.init 1)).2.2 1 (by decide)).1
      (by decide)⟩

/-! ## C1: feedback router range checks -/

theorem getD_set_self {α : Type} (l : List α) (i : Nat) (a d : α)
    (h : i < l.length) : (l.set i a).getD i d = a := by
  rw [List.getD_eq_getElem?_getD, List.getElem?_set_self h]
  rfl

theorem lt_length_extendSends (sends : List SendInfo) (idx : Nat) :
    idx < (extendSends sends idx).length := by
  simp [extendSends]
  omega

theorem lt_length_extendFx (fxl : List FXInfo) (idx : Nat) :
    idx < (extendFx fxl idx).length := by
  simp [extendFx]
  omega

theorem lt_length_extendParams (ps : List ParamInfo) (idx : Nat) :
    idx < (extendParams ps idx).length := by
  simp [extendParams]
  omega

theorem on_track_float_nonNumeric (s : ReaperState) (addr field : String) :
    on_track_float s addr field .nonNumeric = s := by
  unfold on_track_float
  cases hx : extract_track_num addr <;> rfl

theorem on_track_float_out_of_range (s : ReaperState) (addr field : String)
    (v : ℚ)
    (hf : field = "volume" ∨ field = "pan" ∨ field = "vu" ∨
      field = "vu_l" ∨ field = "vu_r")
    (hv : ¬(0 ≤ v ∧ v ≤ 1)) :
    on_track_float s addr field (.num v) = s := by
  unfold on_track_float
  cases hx : extract_track_num addr
  · rfl
  · simp only [pyFloat]
    rcases hf with hf | hf | hf | hf | hf <;> subst hf
    · rw [if_pos ⟨Or.inl rfl, hv⟩]
    · rw [if_pos ⟨Or.inr rfl, hv⟩]
    · rw [if_neg (by rintro ⟨h1, _⟩; revert h1; decide),
        if_pos ⟨by decide, hv⟩]
    · rw [if_neg (by rintro ⟨h1, _⟩; revert h1; decide),
        if_pos ⟨by decide, hv⟩]
    · rw [if_neg (by rintro ⟨h1, _⟩; revert h1; decide),
        if_pos ⟨by decide, hv⟩]

theorem on_track_float_in_range_eq (s : ReaperState) (addr : String)
    (n : Nat) (field : String) (v : ℚ)
    (hx : extract_track_num addr = some n)
    (h0 : 0 ≤ v) (h1 : v ≤ 1) :
    on_track_float s addr field (.num v) = s.update_track_float n field v := by
  unfold on_track_float
  rw [hx]
  simp only [pyFloat]
  rw [if_neg (by rintro ⟨_, hr⟩; exact hr ⟨h0, h1⟩),
    if_neg (by rintro ⟨_, hr⟩; exact hr ⟨h0, h1⟩)]

theorem on_track_float_in_range (s : ReaperState) (addr : String)
    (n : Nat) (field : String) (v : ℚ)
    (hx : extract_track_num addr = some n)
    (h0 : 0 ≤ v) (h1 : v ≤ 1) :
    dictGet (on_track_float s addr field (.num v)).tracks n =
      some (((dictGet s.tracks n).getD (TrackInfo.init n)).setFloat field v) ∧
    (∀ m, m ≠ n →
      dictGet (on_track_float s addr field (.num v)).tracks m =
        dictGet s.tracks m) ∧
    (on_track_float s addr field (.num v)).fx = s.fx ∧
    (on_track_float s addr field (.num v)).master_volume = s.master_volume ∧
    (on_track_float s addr field (.num v)).master_pan = s.master_pan ∧
    (on_track_float s addr field (.num v)).master_vu = s.master_vu ∧
    (on_track_float s addr field (.num v)).bank_offset = s.bank_offset := by
  rw [on_track_float_in_range_eq s addr n field v hx h0 h1]
  unfold ReaperState.update_track_float
  refine ⟨?_, fun m hm => ?_, rfl, rfl, rfl, rfl, rfl⟩
  · rw [dictGet_dictSet, if_pos rfl]
  · rw [dictGet_dictSet, if_neg hm]

theorem on_master_float_nonNumeric (s : ReaperState) (field : String) :
    on_master_float s field .nonNumeric = s := rfl

theorem on_master_float_out_of_range (s : ReaperState) (field : String)
    (v : ℚ) (hv : ¬(0 ≤ v ∧ v ≤ 1)) :
    on_master_float s field (.num v) = s := by
  unfold on_master_float
  simp only [pyFloat]
  rw [if_pos hv]

theorem on_master_float_in_range (s : ReaperState) (v : ℚ)
    (h0 : 0 ≤ v) (h1 : v ≤ 1) :
    on_master_float s "volume" (.num v) =
      { s with master_volume := v, dirty := true } ∧
    on_master_float s "pan" (.num v) =
      { s with master_pan := v, dirty := true } ∧
    on_master_float s "vu" (.num v) =
      { s with master_vu := v, dirty := true } := by
  refine ⟨?_, ?_, ?_⟩ <;>
    · unfold on_master_float
      simp only [pyFloat]
      rw [if_neg (fun hr => hr ⟨h0, h1⟩)]
      rfl

theorem on_send_float_nonNumeric (s : ReaperState) (addr field : String) :
    on_send_float s addr field .nonNumeric = s := by
  unfold on_send_float
  cases hx : parseSendAddr addr <;> rfl

theorem on_send_float_out_of_range (s : ReaperState) (addr field : String)
    (v : ℚ) (hv : ¬(0 ≤ v ∧ v ≤ 1)) :
    on_send_float s addr field (.num v) = s := by
  unfold on_send_float
  cases hx : parseSendAddr addr
  · rfl
  · simp only [pyFloat]
    rw [if_pos hv]

theorem on_send_float_in_range (s : ReaperState) (addr : String)
    (n k : Nat) (field : String) (v : ℚ)
    (hx : parseSendAddr addr = some (n, k))
    (h0 : 0 ≤ v) (h1 : v ≤ 1) :
    (∀ m, m ≠ n →
      dictGet (on_send_float s addr field (.num v)).tracks m =
        dictGet s.tracks m) ∧
    (field = "volume" →
      ((((dictGet (on_send_float s addr field (.num v)).tracks n).getD
          (TrackInfo.init n)).sends.getD (k - 1)
            (SendInfo.init 0)).volume = v)) ∧
    (field = "pan" →
      ((((dictGet (on_send_float s addr field (.num v)).tracks n).getD
          (TrackInfo.init n)).sends.getD (k - 1)
            (SendInfo.init 0)).pan = v)) ∧
    (on_send_float s addr field (.num v)).fx = s.fx ∧
    (on_send_float s addr field (.num v)).master_volume = s.master_volume := by
  have heq : on_send_float s addr field (.num v) =
      s.update_send_float n (k - 1) field v := by
    unfold on_send_float
    rw [hx]
    simp only [pyFloat]
    rw [if_neg (fun hr => hr ⟨h0, h1⟩)]
  rw [heq]
  simp only [ReaperState.update_send_float]
  refine ⟨fun m hm => ?_, fun hf => ?_, fun hf => ?_, trivial, trivial⟩
  · rw [dictGet_dictSet, if_neg hm]
  · subst hf
    rw [dictGet_dictSet, if_pos rfl]
    simp only [Option.getD_some]
    rw [getD_set_self _ _ _ _ (lt_length_extendSends _ _)]
    unfold SendInfo.setFloat
    rw [if_pos rfl]
  · subst hf
    rw [dictGet_dictSet, if_pos rfl]
    simp only [Option.getD_some]
    rw [getD_set_self _ _ _ _ (lt_length_extendSends _ _)]
    unfold SendInfo.setFloat
    rw [if_neg (by decide), if_pos rfl]

theorem on_fx_param_value_nonNumeric (s : ReaperState) (addr : String) :
    on_fx_param_value s addr .nonNumeric = s := by
  unfold on_fx_param_value
  cases hx : parseFxParamAddr addr <;> rfl

theorem on_fx_param_value_applied (s : ReaperState) (addr : String)
    (tn f p : Nat) (v : ℚ)
    (hx : parseFxParamAddr addr = some (tn, f, p)) :
    ((((dictGet (on_fx_param_value s addr (.num v)).fx tn).getD []).getD
        (f - 1) (FXInfo.init 0)).params.getD (p - 1)
          (ParamInfo.init 0)).value = v ∧
    (∀ m, m ≠ tn →
      dictGet (on_fx_param_value s addr (.num v)).fx m = dictGet s.fx m) ∧
    (on_fx_param_value s addr (.num v)).tracks = s.tracks := by
  have heq : on_fx_param_value s addr (.num v) =
      s.update_fx_param_value tn (f - 1) (p - 1) v := by
    unfold on_fx_param_value
    rw [hx]
    rfl
  rw [heq]
  simp only [ReaperState.update_fx_param_value]
  refine ⟨?_, fun m hm => ?_, trivial⟩
  · rw [dictGet_dictSet, if_pos rfl]
    simp only [Option.getD_some]
    rw [getD_set_self _ _ _ _ (lt_length_extendFx _ _)]
    simp only
    rw [getD_set_self _ _ _ _ (lt_length_extendParams _ _)]
  · rw [dictGet_dictSet, if_neg hm]

/-- C1 amended: the feedback router discards non-numeric payloads on
every normalized-field handler and discards out-of-range numeric values
for track volume/pan/vu*, master volume/pan/vu and send volume/pan,
leaving the store completely unchanged; an in-range value is applied to
exactly the addressed entity (the addressed track/master field or send,
all other tracks and state components untouched).  FX parameter values,
however, are applied whenever they are numeric, with no [0,1] range
check (the sole divergence from the original claim). -/
theorem feedback_router_range_checks :
    (∀ (s : ReaperState) (addr field : String),
      on_track_float s addr field .nonNumeric = s) ∧
    (∀ (s : ReaperState) (addr field : String) (v : ℚ),
      (field = "volume" ∨ field = "pan" ∨ field = "vu" ∨
        field = "vu_l" ∨ field = "vu_r") → ¬(0 ≤ v ∧ v ≤ 1) →
      on_track_float s addr field (.num v) = s) ∧
    (∀ (s : ReaperState) (addr : String) (n : Nat) (field : String) (v : ℚ),
      extract_track_num addr = some n → 0 ≤ v → v ≤ 1 →
      dictGet (on_track_float s addr field (.num v)).tracks n =
        some (((dictGet s.tracks n).getD
          (TrackInfo.init n)).setFloat field v) ∧
      (∀ m, m ≠ n →
        dictGet (on_track_float s addr field (.num v)).tracks m =
          dictGet s.tracks m) ∧
      (on_track_float s addr field (.num v)).fx = s.fx ∧
      (on_track_float s addr field (.num v)).master_volume =
        s.master_volume ∧
      (on_track_float s addr field (.num v)).master_pan = s.master_pan ∧
      (on_track_float s addr field (.num v)).master_vu = s.master_vu ∧
      (on_track_float s addr field (.num v)).bank_offset = s.bank_offset) ∧
    (∀ (s : ReaperState) (field : String),
      on_master_float s field .nonNumeric = s) ∧
    (∀ (s : ReaperState) (field : String) (v : ℚ), ¬(0 ≤ v ∧ v ≤ 1) →
      on_master_float s field (.num v) = s) ∧
    (∀ (s : ReaperState) (v : ℚ), 0 ≤ v → v ≤ 1 →
      on_master_float s "volume" (.num v) =
        { s with master_volume := v, dirty := true } ∧
      on_master_float s "pan" (.num v) =
        { s with master_pan := v, dirty := true } ∧
      on_master_float s "vu" (.num v) =
        { s with master_vu := v, dirty := true }) ∧
    (∀ (s : ReaperState) (addr field : String),
      on_send_float s addr field .nonNumeric = s) ∧
    (∀ (s : ReaperState) (addr field : String) (v : ℚ), ¬(0 ≤ v ∧ v ≤ 1) →
      on_send_float s addr field (.num v) = s) ∧
    (∀ (s : ReaperState) (addr : String) (n k : Nat) (field : String) (v : ℚ),
      parseSendAddr addr = some (n, k) → 0 ≤ v → v ≤ 1 →
      (∀ m, m ≠ n →
        dictGet (on_send_float s addr field (.num v)).tracks m =
          dictGet s.tracks m) ∧
      (field = "volume" →
        ((((dictGet (on_send_float s addr field (.num v)).tracks n).getD
            (TrackInfo.init n)).sends.getD (k - 1)
              (SendInfo.init 0)).volume = v)) ∧
      (field = "pan" →
        ((((dictGet (on_send_float s addr field (.num v)).tracks n).getD
            (TrackInfo.init n)).sends.getD (k - 1)
              (SendInfo.init 0)).pan = v)) ∧
      (on_send_float s addr field (.num v)).fx = s.fx ∧
      (on_send_float s addr field (.num v)).master_volume =
        s.master_volume) ∧
    (∀ (s : ReaperState) (addr : String),
      on_fx_param_value s addr .nonNumeric = s) ∧
    (∀ (s : ReaperState) (addr : String) (tn f p : Nat) (v : ℚ),
      parseFxParamAddr addr = some (tn, f, p) →
      ((((dictGet (on_fx_param_value s addr (.num v)).fx tn).getD []).getD
          (f - 1) (FXInfo.init 0)).params.getD (p - 1)
            (ParamInfo.init 0)).value = v ∧
      (∀ m, m ≠ tn →
        dictGet (on_fx_param_value s addr (.num v)).fx m =
          dictGet s.fx m) ∧
      (on_fx_param_value s addr (.num v)).tracks = s.tracks) :=
  ⟨on_track_float_nonNumeric,
    on_track_float_out_of_range,
    fun s addr n field v hx h0 h1 =>
      on_track_float_in_range s addr n field v hx h0 h1,
    on_master_float_nonNumeric,
    on_master_float_out_of_range,
    on_master_float_in_range,
    on_send_float_nonNumeric,
    fun s addr field v hv => on_send_float_out_of_range s addr field v hv,
    fun s addr n k field v hx h0 h1 =>
      on_send_float_in_range s addr n k field v hx h0 h1,
    on_fx_param_value_nonNumeric,
    fun s addr tn f p v hx => on_fx_param_value_applied s addr tn f p v hx⟩

/-- C1 counterexample: the claim requires FX parameter values outside
[0,1] to be discarded with the store unchanged, but the handler applies
them: value 2 on /track/1/fx/1/fxparam/1/value mutates the store and
lands in the param map. -/
theorem fx_param_out_of_range_applied :
    ¬ ((2 : ℚ) ≤ 1) ∧
    on_fx_param_value (ReaperState.init 64) "/track/1/fx/1/fxparam/1/value"
        (.num 2) ≠ ReaperState.init 64 ∧
    ((((dictGet (on_fx_param_value (ReaperState.init 64)
          "/track/1/fx/1/fxparam/1/value" (.num 2)).fx 1).getD []).getD 0
        (FXInfo.init 0)).params.getD 0 (ParamInfo.init 0)).value = 2 := by
  refine ⟨by norm_num, fun h => ?_, by decide⟩
  have h2 := congrArg (fun st => st.fx.length) h
  revert h2
  decide

/-- Witness for C1's amended theorem, on the spec's own examples:
/track/3/volume with 1.4 is rejected (store unchanged); /track/3/volume
with 0.8 sets track 3's stored volume attribute to 0.8 and leaves
track 2 untouched; a numeric FX param value is applied. -/
theorem feedback_router_range_checks_witness :
    on_track_float (ReaperState.init 64) "/track/3/volume" "volume"
        (.num 1.4) = ReaperState.init 64 ∧
    dictGet (on_track_float (ReaperState.init 64) "/track/3/volume" "volume"
        (.num 0.8)).tracks 3 =
      some (((dictGet (ReaperState.init 64).tracks 3).getD
        (TrackInfo.init 3)).setFloat "volume" 0.8) ∧
    dictGet (on_track_float (ReaperState.init 64) "/track/3/volume" "volume"
        (.num 0.8)).tracks 2 = dictGet (ReaperState.init 64).tracks 2 ∧
    ((((dictGet (on_fx_param_value (ReaperState.init 64)
          "/track/1/fx/1/fxparam/1/value" (.num 0.3)).fx 1).getD []).getD 0
        (FXInfo.init 0)).params.getD 0 (ParamInfo.init 0)).value = 0.3 :=
  ⟨feedback_router_range_checks.2.1 (ReaperState.init 64) "/track/3/volume"
      "volume" 1.4 (Or.inl rfl) (by norm_num),
    (feedback_router_range_checks.2.2.1 (ReaperState.init 64)
      "/track/3/volume" 3 "volume" 0.8 (by decide) (by norm_num)
      (by norm_num)).1,
    (feedback_router_range_checks.2.2.1 (ReaperState.init 64)
      "/track/3/volume" 3 "volume" 0.8 (by decide) (by norm_num)
      (by norm_num)).2.1 2 (by decide),
    (feedback_router_range_checks.2.2.2.2.2.2.2.2.2.2
      (ReaperState.init 64) "/track/1/fx/1/fxparam/1/value" 1 1 1 0.3
      (by decide)).1⟩

end Push2Reaper
